import Mathlib

/-!
Formal model of the ai-governance-mcp detection-and-decision engine and its
hash-chained audit ledger, shallowly embedded from the Python sources
(`patterns.py`, `policies.py`, `database.py`, `server.py`), together with
theorems settling the specification claims about them.

Modelling conventions:
* Python regular-expression matching (`re.finditer`, `re.search`) is external
  library code; it is abstracted as a `RegexOracle` parameter.  Theorems that
  need facts about it (e.g. that `re.finditer` yields non-overlapping matches
  in ascending position order, as its documentation guarantees) take those
  facts as hypotheses on the oracle.
* SHA-256 composed with `json.dumps(..., sort_keys=True)` over the five fixed
  hash fields is abstracted as a function parameter `H : HashInput → String`.
* Python dicts are modelled as insertion-ordered association lists, matching
  CPython's documented ordering semantics; `dict.update` is `dictUpdate`.
* Python's stable `list.sort(key=...)` is modelled by `List.insertionSort`
  over the key order, which is likewise a stable sort.
* SQLite's single-writer locking is modelled explicitly (`LockState`,
  `acquireWrite`): `add_audit_entry` executes its INSERT on one connection
  and then lets `_update_statistics` write on a second connection while the
  first connection's transaction still holds the write lock, so the second
  write always fails with `'database is locked'` and the exception
  propagates before the insert's commit — the model reproduces this
  always-taken error path.
-/

namespace AIGov

/-! ## patterns.py — data model -/

/-- Model of `PIIMatch` (patterns.py).  The Python field `end` is renamed
`stop` because `end` is a Lean keyword; `confidence` is the constant `1`
standing for the source's default float `1.0`, the only value ever used. -/
structure PIIMatch where
  type : String
  name : String
  value : Option String
  start : Nat
  stop : Nat
  severity : String
  confidence : Nat
deriving DecidableEq, Repr

/-- One entry of the `PII_PATTERNS` / `EXTENDED_PATTERNS` tables: the regex
source text plus display metadata (patterns.py). -/
structure PatternConfig where
  pattern : String
  name : String
  severity : String
  description : String
deriving DecidableEq, Repr

/-- A single regex match as produced by `re.finditer`: the whole matched text
(`match.group()`), the capture groups (`match.groups()`), and the match
offsets (`match.start()`, `match.end()`; the latter renamed `stop`). -/
structure RawMatch where
  matched : String
  groups : List (Option String)
  start : Nat
  stop : Nat
deriving DecidableEq, Repr

/-- Abstraction of the Python `re` library as used by this code base:
`finditer pattern text` models `re.finditer(pattern, text, re.IGNORECASE)`
and `search pattern text` models `bool(re.search(pattern, text,
re.IGNORECASE))`. -/
structure RegexOracle where
  finditer : String → String → List RawMatch
  search : String → String → Bool

/-- Python `dict.update`: keys already present are overwritten in place
(keeping their position), new keys are appended in iteration order. -/
def dictUpdate (base upd : List (String × α)) : List (String × α) :=
  upd.foldl
    (fun acc kv =>
      if acc.any (fun p => p.1 == kv.1) then
        acc.map (fun p => if p.1 == kv.1 then (p.1, kv.2) else p)
      else acc ++ [kv])
    base

/-- Table `PII_PATTERNS` from patterns.py, in source (insertion) order.  Regex
sources are carried verbatim as opaque strings (braces written via `\x7b`,
`\x7d` escapes). -/
def PII_PATTERNS : List (String × PatternConfig) :=
  [ ("ssn",
     { pattern := "\\b\\d\x7b3\x7d-\\d\x7b2\x7d-\\d\x7b4\x7d\\b"
       name := "Social Security Number", severity := "high"
       description := "US Social Security Number" }),
    ("email",
     { pattern := "\\b[a-zA-Z0-9._%+-]+@[a-zA-Z0-9.-]+\\.[a-zA-Z]\x7b2,\x7d\\b"
       name := "Email Address", severity := "medium"
       description := "Email addresses" }),
    ("phone_us",
     { pattern := "\\b(?:\\+?1[-.\\s]?)?\\(?\\d\x7b3\x7d\\)?[-.\\s]?\\d\x7b3\x7d[-.\\s]?\\d\x7b4\x7d\\b"
       name := "Phone Number (US)", severity := "medium"
       description := "US phone numbers" }),
    ("credit_card",
     { pattern := "\\b(?:\\d\x7b4\x7d[-\\s]?)\x7b3\x7d\\d\x7b4\x7d\\b"
       name := "Credit Card Number", severity := "high"
       description := "Credit card numbers" }),
    ("ip_address",
     { pattern := "\\b(?:(?:25[0-5]|2[0-4][0-9]|[01]?[0-9][0-9]?)\\.)\x7b3\x7d(?:25[0-5]|2[0-4][0-9]|[01]?[0-9][0-9]?)\\b"
       name := "IP Address", severity := "low"
       description := "IPv4 addresses" }),
    ("aws_key",
     { pattern := "\\b(?:AKIA|ABIA|ACCA|ASIA)[A-Z0-9]\x7b16\x7d\\b"
       name := "AWS Access Key", severity := "critical"
       description := "AWS access key IDs" }),
    ("api_key_generic",
     { pattern := "\\b(?:api[_-]?key|apikey|api[_-]?token)[\"\\s:=]+[\"\x27`]?([a-zA-Z0-9_\\-]\x7b20,\x7d)[\"\x27`]?\\b"
       name := "API Key", severity := "high"
       description := "Generic API keys" }),
    ("github_token",
     { pattern := "\\b(?:ghp|gho|ghu|ghs|ghr)_[a-zA-Z0-9]\x7b36\x7d\\b"
       name := "GitHub Token", severity := "critical"
       description := "GitHub personal access tokens" }),
    ("slack_token",
     { pattern := "\\bxox[baprs]-[a-zA-Z0-9-]+\\b"
       name := "Slack Token", severity := "high"
       description := "Slack API tokens" }),
    ("private_key",
     { pattern := "-----BEGIN (?:RSA |EC )?PRIVATE KEY-----"
       name := "Private Key", severity := "critical"
       description := "Private cryptographic keys" }) ]

/-- Table `EXTENDED_PATTERNS` from patterns.py, in source order. -/
def EXTENDED_PATTERNS : List (String × PatternConfig) :=
  [ ("passport",
     { pattern := "\\b[A-Z]\x7b1,2\x7d\\d\x7b6,9\x7d\\b"
       name := "Passport Number", severity := "high"
       description := "Passport numbers" }),
    ("drivers_license",
     { pattern := "\\b[A-Z]\x7b1,2\x7d\\d\x7b5,8\x7d\\b"
       name := "Driver License", severity := "medium"
       description := "Driver license numbers" }),
    ("iban",
     { pattern := "\\b[A-Z]\x7b2\x7d\\d\x7b2\x7d[A-Z0-9]\x7b4\x7d\\d\x7b7\x7d([A-Z0-9]?)\x7b0,16\x7d\\b"
       name := "IBAN", severity := "high"
       description := "International Bank Account Number" }),
    ("bitcoin_address",
     { pattern := "\\b[13][a-km-zA-HJ-NP-Z1-9]\x7b25,34\x7d\\b"
       name := "Bitcoin Address", severity := "medium"
       description := "Bitcoin wallet addresses" }),
    ("ethereum_address",
     { pattern := "\\b0x[a-fA-F0-9]\x7b40\x7d\\b"
       name := "Ethereum Address", severity := "medium"
       description := "Ethereum wallet addresses" }) ]

/-! ## patterns.py — Luhn validator -/

/-- A character removed by `re.sub(r"[-\s]", "", number)`: the dash or any
whitespace character. -/
def isSepChar (c : Char) : Bool := c == '-' || c.isWhitespace

/-- Model of `re.sub(r"[-\s]", "", number)`: drop every separator character. -/
def stripSeparators (s : String) : String :=
  String.mk (s.data.filter (fun c => !(isSepChar c)))

/-- Python `str.isdigit()` (restricted to ASCII digits, the only characters
the credit-card regex can produce): true iff the string is non-empty and all
of its characters are digits. -/
def pyIsDigit (s : String) : Bool :=
  !(s.data.isEmpty) && s.data.all Char.isDigit

/-- Numeric value of a digit character (`int(digit)`). -/
def charDigitVal (c : Char) : Nat := c.toNat - 48

/-- The accumulation loop of `validate_credit_card` (patterns.py lines
127-133): walk the reversed digit string with its index, doubling every
digit at an odd index and subtracting 9 from doubled values above 9. -/
def luhnLoop : Nat → List Char → Nat
  | _, [] => 0
  | i, c :: cs =>
    (if i % 2 == 1 then
      (if 2 * charDigitVal c > 9 then 2 * charDigitVal c - 9 else 2 * charDigitVal c)
     else charDigitVal c) + luhnLoop (i + 1) cs

/-- Function `validate_credit_card` (patterns.py): strip separators, reject non-digit
input, then accept iff the Luhn total is divisible by 10. -/
def validate_credit_card (number : String) : Bool :=
  let number := stripSeparators number
  if !(pyIsDigit number) then false
  else luhnLoop 0 number.data.reverse % 10 == 0

/-- Modelled from the spec's words (§4.2): the Luhn check described as
"double every second digit from the rightmost end, subtract 9 if the doubled
value exceeds 9, sum all digits, valid iff the total is divisible by 10".
The input is the digit list ordered from the rightmost digit. -/
def luhnSpecSum : List Nat → Nat
  | [] => 0
  | [d] => d
  | d :: d2 :: rest =>
    d + (if 2 * d2 > 9 then 2 * d2 - 9 else 2 * d2) + luhnSpecSum rest

/-! ## patterns.py — detect_pii and redact_pii -/

/-- The value a match reports (patterns.py line 164):
`match.group(1) if len(match.groups()) > 0 else match.group()`. -/
def matchValue (m : RawMatch) : Option String :=
  if m.groups.length > 0 then m.groups.headD none else some m.matched

/-- The findings one pattern contributes in `detect_pii`'s inner loop
(patterns.py lines 157-173): every `finditer` match, except that
`credit_card` matches failing the Luhn check are skipped. -/
def findingsFor (ora : RegexOracle) (text ptype : String) (cfg : PatternConfig) :
    List PIIMatch :=
  (ora.finditer cfg.pattern text).filterMap (fun m =>
    if ptype == "credit_card" && !(validate_credit_card m.matched) then none
    else some { type := ptype, name := cfg.name, value := matchValue m,
                start := m.start, stop := m.stop, severity := cfg.severity,
                confidence := 1 })

/-- The pattern table `detect_pii` scans: the base set, updated with the
extended set when `extended` is true (patterns.py lines 148-150). -/
def patternsList (extended : Bool) : List (String × PatternConfig) :=
  if extended then dictUpdate PII_PATTERNS EXTENDED_PATTERNS else PII_PATTERNS

/-- The key order used by `matches.sort(key=lambda x: x.start)`. -/
def startLE (a b : PIIMatch) : Prop := a.start ≤ b.start

instance : DecidableRel startLE := fun a b => Nat.decLe a.start b.start

instance : IsTotal PIIMatch startLE := ⟨fun a b => Nat.le_total a.start b.start⟩

instance : IsTrans PIIMatch startLE := ⟨fun _ _ _ h h' => Nat.le_trans h h'⟩

/-- Function `detect_pii` (patterns.py): collect the findings of every configured
pattern in table order, then stable-sort them by start offset. -/
def detect_pii (ora : RegexOracle) (text : String) (extended : Bool) :
    List PIIMatch :=
  List.insertionSort startLE
    ((patternsList extended).flatMap (fun p => findingsFor ora text p.1 p.2))

/-- The replacement string `redact_pii` substitutes for one match
(patterns.py lines 200-206): the category-qualified placeholder, the
length-preserving `[XX…X]` filler (Python's negative string repetition
yielding the empty filler is matched by truncated `Nat` subtraction), or the
style string itself. -/
def replacementFor (redaction_style : String) (m : PIIMatch) : String :=
  if redaction_style == "[REDACTED-TYPE]" then
    "[REDACTED-" ++ m.name.toUpper ++ "]"
  else if redaction_style == "[REDACTED-XXX]" then
    "[" ++ String.mk (List.replicate (m.stop - m.start - 2) 'X') ++ "]"
  else redaction_style

/-- Python slice assembly `redacted[:start] + replacement + redacted[end:]`. -/
def spliceReplace (s : String) (start stop : Nat) (repl : String) : String :=
  String.mk (s.data.take start ++ repl.data ++ s.data.drop stop)

/-- The key order of `sorted(matches, key=lambda x: x.start, reverse=True)`. -/
def startGE (a b : PIIMatch) : Prop := b.start ≤ a.start

instance : DecidableRel startGE := fun a b => Nat.decLe b.start a.start

/-- Function `redact_pii` (patterns.py): identity on an empty match list, otherwise
replace every match, processed in descending start order so earlier
replacements do not invalidate later offsets.  (The source parameter name
`matches` is a Lean keyword, hence `matchList`.) -/
def redact_pii (text : String) (matchList : List PIIMatch)
    (redaction_style : String) : String :=
  if matchList.isEmpty then text
  else
    (List.insertionSort startGE matchList).foldl
      (fun red m => spliceReplace red m.start m.stop (replacementFor redaction_style m))
      text

/-! ## policies.py — data model and rule tables -/

/-- Enum `PolicyAction` (policies.py). -/
inductive PolicyAction where
  | allow
  | warn
  | block
  | redact
deriving DecidableEq, Repr

/-- The `.value` string of a `PolicyAction` enum member. -/
def PolicyAction.value : PolicyAction → String
  | .allow => "allow"
  | .warn => "warn"
  | .block => "block"
  | .redact => "redact"

/-- Model of `PolicyViolation` (policies.py); `confidence` is the constant 1
for the source's default `1.0`, the only value ever used. -/
structure PolicyViolation where
  policy_name : String
  category : String
  matched_keyword : String
  action : PolicyAction
  message : String
  severity : String
  confidence : Nat
deriving DecidableEq, Repr

/-- One entry of `POLICY_RULES` / `EXTENDED_POLICIES`.  A missing
`keywords` or `regex_patterns` dict key is modelled by the empty list, which
`check_policies` treats identically (its per-key loops simply find nothing). -/
structure PolicyRule where
  category : String
  keywords : List String
  regex_patterns : List String
  action : PolicyAction
  message : String
  severity : String
deriving DecidableEq, Repr

/-- Table `POLICY_RULES` from policies.py, in source order. -/
def POLICY_RULES : List (String × PolicyRule) :=
  [ ("medical_advice",
     { category := "medical"
       keywords := ["medical advice", "diagnosis", "diagnose", "prescribe",
                    "prescription", "treatment plan", "medication", "dosage",
                    "symptoms indicate", "medical opinion", "health advice"]
       regex_patterns :=
         ["\\b(?:what|which) (?:medication|medicine|drug)s?\\b",
          "\\b(?:should i|do i need to) (?:take|see a doctor)\\b",
          "\\bdiagnos(?:is|e) (?:my|these) symptoms?\\b"]
       action := .block
       message := "Medical advice detected. Please consult a licensed healthcare professional."
       severity := "high" }),
    ("legal_advice",
     { category := "legal"
       keywords := ["legal advice", "legal counsel", "lawsuit", "sue",
                    "legal action", "legal rights", "attorney", "lawyer",
                    "legal opinion", "contract review"]
       regex_patterns :=
         ["\\b(?:can|should) i sue\\b",
          "\\bis this (?:legal|illegal)\\b",
          "\\bwhat are my legal (?:rights|options)\\b"]
       action := .block
       message := "Legal advice detected. Please consult a qualified attorney."
       severity := "high" }),
    ("financial_advice",
     { category := "financial"
       keywords := ["investment advice", "stock tips", "financial planning",
                    "buy this stock", "invest in", "trading strategy",
                    "portfolio advice", "retirement planning", "tax advice"]
       regex_patterns :=
         ["\\b(?:should i|when to) (?:buy|sell) (?:stock|crypto)\\b",
          "\\b(?:best|good) investment (?:strategy|opportunity)\\b"]
       action := .warn
       message := "Financial advice detected. Please consult a licensed financial advisor."
       severity := "medium" }),
    ("harmful_content",
     { category := "safety"
       keywords := ["self harm", "suicide", "hurt myself", "end my life",
                    "harmful", "dangerous activity"]
       regex_patterns :=
         ["\\bhow to (?:make|build|create) (?:bomb|weapon|explosive)\\b",
          "\\b(?:ways to|how to) (?:harm|hurt|injure)\\b"]
       action := .block
       message := "Content policy violation. This type of content is not allowed."
       severity := "critical" }),
    ("internal_data",
     { category := "confidential"
       keywords := ["confidential", "internal only", "do not share",
                    "proprietary", "trade secret", "company confidential",
                    "restricted"]
       regex_patterns :=
         ["\\b(?:internal|confidential) (?:document|information|data)\\b",
          "\\bdo not (?:share|distribute|disclose)\\b"]
       action := .warn
       message := "Potentially confidential information detected."
       severity := "medium" }) ]

/-- Table `EXTENDED_POLICIES` from policies.py, in source order. -/
def EXTENDED_POLICIES : List (String × PolicyRule) :=
  [ ("competitive_intel",
     { category := "business"
       keywords := ["competitor analysis", "competitor pricing",
                    "steal customers", "poach employees", "competitor secrets"]
       regex_patterns := []
       action := .warn
       message := "Competitive intelligence query detected."
       severity := "low" }),
    ("personal_info_request",
     { category := "privacy"
       keywords := ["home address", "personal phone", "family members",
                    "social security", "date of birth", "mothers maiden name"]
       regex_patterns := []
       action := .warn
       message := "Request for personal information detected."
       severity := "medium" }),
    ("code_injection",
     { category := "security"
       keywords := []
       regex_patterns :=
         ["<script[^>]*>.*?</script>",
          "(?:SELECT|INSERT|UPDATE|DELETE|DROP|CREATE|ALTER).*(?:FROM|INTO|TABLE)",
          "(?:\\$\\\x7b|\\\x7b\\\x7b)[^\x7d]+(?:\\\x7d|\\\x7d\\\x7d)"]
       action := .block
       message := "Potential code injection detected."
       severity := "high" }) ]

/-! ## policies.py — check_policies and should_block -/

/-- Python `str.lower()` (over the ASCII range the rule keywords use):
lower-case the string character by character. -/
def pyLower (s : String) : String := String.mk (s.data.map Char.toLower)

/-- Whether `needle` occurs as a contiguous run starting at some position of
`haystack`. -/
def infixAt (needle : List Char) : List Char → Bool
  | [] => needle.isEmpty
  | c :: cs => List.isPrefixOf needle (c :: cs) || infixAt needle cs

/-- Python substring containment `needle in haystack`. -/
def strIn (needle haystack : String) : Bool :=
  infixAt needle.data haystack.data

/-- One iteration of `check_policies`'s rule loop (policies.py lines
168-196): try the rule's keywords first (case-insensitive substring on the
pre-lowered text), then its regex patterns, stopping at the first trigger;
produce at most one violation. -/
def evalRule (ora : RegexOracle) (text_lower text policy_name : String)
    (cfg : PolicyRule) : Option PolicyViolation :=
  match cfg.keywords.find? (fun k => strIn (pyLower k) text_lower) with
  | some k =>
    some { policy_name := policy_name, category := cfg.category,
           matched_keyword := k, action := cfg.action,
           message := cfg.message, severity := cfg.severity, confidence := 1 }
  | none =>
    match cfg.regex_patterns.find? (fun p => ora.search p text) with
    | some p =>
      some { policy_name := policy_name, category := cfg.category,
             matched_keyword := "pattern: " ++ p, action := cfg.action,
             message := cfg.message, severity := cfg.severity, confidence := 1 }
    | none => none

/-- Function `check_policies` (policies.py): the base rules, updated with the
extended set and then with caller-supplied custom policies, evaluated in
table order against the text. -/
def check_policies (ora : RegexOracle) (text : String) (extended : Bool)
    (custom_policies : List (String × PolicyRule)) : List PolicyViolation :=
  let policies :=
    dictUpdate (if extended then dictUpdate POLICY_RULES EXTENDED_POLICIES
                else POLICY_RULES) custom_policies
  policies.flatMap (fun p => (evalRule ora (pyLower text) text p.1 p.2).toList)

/-- Function `should_block` (policies.py): some violation carries the block action. -/
def should_block (violations : List PolicyViolation) : Bool :=
  violations.any (fun v => v.action == PolicyAction.block)

/-- The action-resolution sequence of `_scan_prompt` (server.py lines
357-361): blocked if `should_block`, else warned if any violation exists,
else allowed. -/
def resolveAction (policy_violations : List PolicyViolation) : String :=
  if should_block policy_violations then "blocked"
  else if !(policy_violations.isEmpty) then "warned"
  else "allowed"

/-! ## database.py — audit ledger -/

/-- A JSON-serialisable configuration / metadata value (the values held by
the server's config dict and by scan contexts). -/
inductive CVal where
  | b (v : Bool)
  | s (v : String)
  | n (v : Nat)
  | dict (v : List (String × CVal))

/-- The exact field set fed to the entry hash by `calculate_hash`
(database.py lines 104-110): `{timestamp, event_type, original_text,
action_taken, prev_hash}`; a missing dict key contributes JSON `null`,
modelled as `none`. -/
structure HashInput where
  timestamp : Option String
  event_type : Option String
  original_text : Option String
  action_taken : Option String
  prev_hash : String
deriving DecidableEq, Repr

/-- Abstraction of `hashlib.sha256(json.dumps(hash_data,
sort_keys=True).encode()).hexdigest()`: a function from the five hashed
fields to a digest string. -/
def HashFn : Type := HashInput → String

/-- One PII item as logged by `_scan_prompt` in the audit entry
(server.py lines 367-373): `{type, name, severity}`. -/
structure PiiLogItem where
  type : String
  name : String
  severity : String
deriving DecidableEq, Repr

/-- One policy-violation item as logged by `_scan_prompt` (server.py lines
374-381): `{policy, category, action, message}`. -/
structure PvLogItem where
  policy : String
  category : String
  action : String
  message : String
deriving DecidableEq, Repr

/-- The dict passed to `add_audit_entry`.  Fields read through
`entry.get(...)` with no default are `Option`; `pii_detected`,
`policy_violations` and `metadata` default to empty, so they are plain
lists (an absent key is the empty list). -/
structure AuditEntry where
  timestamp : Option String
  event_type : Option String
  original_text : Option String
  redacted_text : Option String
  pii_detected : List PiiLogItem
  policy_violations : List PvLogItem
  action_taken : Option String
  user_id : Option CVal
  session_id : Option String
  metadata : List (String × CVal)

/-- One stored row of the `audit_log` table.  `id` is the autoincrement
primary key; `timestamp`, `event_type` and `action_taken` are stored with
the insert defaults applied (database.py lines 143-149); the JSON-encoded
list columns are modelled structurally, since their encoding is a
representation detail not consulted by any claim. -/
structure AuditRow where
  id : Nat
  timestamp : String
  event_type : String
  original_text : Option String
  redacted_text : Option String
  pii_detected : List PiiLogItem
  policy_violations : List PvLogItem
  action_taken : String
  user_id : Option CVal
  session_id : Option String
  metadata : List (String × CVal)
  hash : String
  prev_hash : String

/-- One row of the `statistics` table (the `unique_users` column is never
written and stays 0, so it is omitted). -/
structure DayStats where
  total_scans : Nat
  pii_detections : Nat
  policy_violations : Nat
  blocked_prompts : Nat
deriving DecidableEq, Repr

/-- The durable database state: the `audit_log` rows in id order and the
`statistics` rows keyed by date. -/
structure DBState where
  rows : List AuditRow
  stats : List (String × DayStats)

/-- Function `calculate_hash` (database.py): hash the five named fields of the entry
together with the previous hash. -/
def calculate_hash (H : HashFn) (e : AuditEntry) (prev_hash : String) : String :=
  H { timestamp := e.timestamp, event_type := e.event_type,
      original_text := e.original_text, action_taken := e.action_taken,
      prev_hash := prev_hash }

/-- The hash input `verify_hash_chain` recomputes for a stored row
(database.py lines 283-290): the row's stored `timestamp`, `event_type`,
`original_text` and `action_taken` columns plus the running previous hash.
The stored `prev_hash` column (row index 12) is never consulted. -/
def rowHashInput (r : AuditRow) (prev : String) : HashInput :=
  { timestamp := some r.timestamp, event_type := some r.event_type,
    original_text := r.original_text, action_taken := some r.action_taken,
    prev_hash := prev }

/-- Look up the `DayStats` row for a date. -/
def statsLookup (d : String) (stats : List (String × DayStats)) :
    Option DayStats :=
  (stats.find? (fun p => p.1 == d)).map (·.2)

/-- The per-column increments of `_update_statistics`'s UPDATE statement
(database.py lines 178-190): `total_scans` by 1, `pii_detections` by the
entry's finding count, `policy_violations` by its violation count,
`blocked_prompts` by 1 iff the entry's `action_taken` is `'blocked'`. -/
def bumpStats (e : AuditEntry) (s : DayStats) : DayStats :=
  { total_scans := s.total_scans + 1
    pii_detections := s.pii_detections + e.pii_detected.length
    policy_violations := s.policy_violations + e.policy_violations.length
    blocked_prompts := s.blocked_prompts
      + (if e.action_taken == some "blocked" then 1 else 0) }

/-- Function `_update_statistics` (database.py): apply `bumpStats` to today's row if
one exists, otherwise insert a fresh row carrying the increments. -/
def update_statistics (today : String) (e : AuditEntry)
    (stats : List (String × DayStats)) : List (String × DayStats) :=
  if stats.any (fun p => p.1 == today) then
    stats.map (fun p => if p.1 == today then (p.1, bumpStats e p.2) else p)
  else
    stats ++ [(today, { total_scans := 1
                        pii_detections := e.pii_detected.length
                        policy_violations := e.policy_violations.length
                        blocked_prompts :=
                          if e.action_taken == some "blocked" then 1 else 0 })]

/-- The stored hash of the last row, or `prev` when there is none — for
`prev = "genesis"` exactly the tail-hash read of `add_audit_entry`
(database.py lines 124-126: `SELECT hash … ORDER BY id DESC LIMIT 1`,
defaulting to the genesis sentinel). -/
def lastHashD (prev : String) (rows : List AuditRow) : String :=
  ((rows.getLast?).map (·.hash)).getD prev

/-- The row `add_audit_entry`'s INSERT stores (database.py lines 136-155),
with the source's `entry.get` column defaults applied; `nextId` is the
autoincrement id. -/
def newRow (now : String) (e : AuditEntry) (nextId : Nat)
    (entry_hash prev_hash : String) : AuditRow :=
  { id := nextId
    timestamp := e.timestamp.getD now
    event_type := e.event_type.getD "scan"
    original_text := e.original_text
    redacted_text := e.redacted_text
    pii_detected := e.pii_detected
    policy_violations := e.policy_violations
    action_taken := e.action_taken.getD "allowed"
    user_id := e.user_id
    session_id := e.session_id
    metadata := e.metadata
    hash := entry_hash
    prev_hash := prev_hash }

/-- The write lock of one SQLite database: free, or held by one connection. -/
inductive LockState where
  | free
  | heldBy (conn : Nat)
deriving DecidableEq, Repr

/-- SQLite's documented single-writer discipline, on which database.py
implicitly relies: a connection acquires the write lock when it is free or
already its own; a write attempted on a second connection while another
connection's write transaction is open fails with `'database is locked'`
once the busy timeout elapses. -/
def acquireWrite (conn : Nat) : LockState → Except String LockState
  | .free => .ok (.heldBy conn)
  | .heldBy c => if c == conn then .ok (.heldBy c) else .error "database is locked"

/-- Function `add_audit_entry` (database.py): read the tail hash (or the
`"genesis"` sentinel), hash the entry against it, and execute the INSERT on
connection 1 — opening its write transaction — then call
`_update_statistics`, which opens a *second* connection (line 167) and
writes to the statistics table while connection 1's transaction still holds
the write lock.  That second write can never acquire the lock: it stalls
for the busy timeout and raises `OperationalError('database is locked')`,
which propagates before the commit on line 160, so every call raises,
nothing becomes durable and no hash is returned.  The `ok` branch
transcribes the unreachable success path (lines 158-163: committed insert
plus statistics update). -/
def add_audit_entry (H : HashFn) (now today : String) (db : DBState)
    (e : AuditEntry) : Except String String × DBState :=
  let prev_hash := lastHashD "genesis" db.rows
  let entry_hash := calculate_hash H e prev_hash
  let row := newRow now e (db.rows.length + 1) entry_hash prev_hash
  match acquireWrite 2 (.heldBy 1) with
  | .error msg => (.error msg, db)
  | .ok _ =>
    (.ok entry_hash,
     { rows := db.rows ++ [row], stats := update_statistics today e db.stats })

/-- One mismatch reported by `verify_hash_chain`: the row id with the
recomputed and the stored hash. -/
structure InvalidEntry where
  id : Nat
  expected_hash : String
  actual_hash : String
deriving DecidableEq, Repr

/-- The verification loop of `verify_hash_chain` (database.py lines
279-301): recompute each row's hash from its stored fields and the previous
row's *actual stored* hash, collect every mismatch, and always continue
with the stored hash as the next link. -/
def verifyGo (H : HashFn) (prev : String) : List AuditRow → List InvalidEntry
  | [] => []
  | r :: rs =>
    let expected := H (rowHashInput r prev)
    (if expected = r.hash then []
     else [{ id := r.id, expected_hash := expected, actual_hash := r.hash }])
      ++ verifyGo H r.hash rs

/-- The result dict of `verify_hash_chain`. -/
structure VerifyResult where
  valid : Bool
  entries_checked : Nat
  invalid_entries : List InvalidEntry
  message : String
deriving DecidableEq, Repr

/-- Function `verify_hash_chain` (database.py) over the full table (the
`limit=None` call): valid iff the loop found no mismatch. -/
def verify_hash_chain (H : HashFn) (rows : List AuditRow) : VerifyResult :=
  let inv := verifyGo H "genesis" rows
  { valid := inv.isEmpty
    entries_checked := rows.length
    invalid_entries := inv
    message := if inv.isEmpty then "Hash chain is intact"
               else "Found " ++ toString inv.length ++ " invalid entries" }

/-! ## server.py — configuration access and _scan_prompt -/

/-- Python truthiness of a `CVal`, as applied by `if config.get(...)`. -/
def truthy : CVal → Bool
  | .b v => v
  | .s v => !(v == "")
  | .n v => !(v == 0)
  | .dict v => !(v.isEmpty)

/-- Python `dict.get(key)` on an association list. -/
def cget (cfg : List (String × CVal)) (k : String) : Option CVal :=
  ((cfg.find? (fun p => p.1 == k)).map (·.2))

/-- Model of `config.get(key, default)` used in boolean position: the stored value's
truthiness, or the default when the key is absent. -/
def cgetBool (cfg : List (String × CVal)) (k : String) (d : Bool) : Bool :=
  match cget cfg k with
  | some v => truthy v
  | none => d

/-- Model of `config.get(key, default)` used as an integer (`max_prompt_length`).
A stored non-integer value would raise `TypeError` at the comparison in
Python; that error path is outside this model, so such values fall back to
the default. -/
def cgetNat (cfg : List (String × CVal)) (k : String) (d : Nat) : Nat :=
  match cget cfg k with
  | some (.n v) => v
  | some _ => d
  | none => d

/-- Model of `config.get(key, default)` used as a string (`redaction_style`); as
with `cgetNat`, a stored value of another type is outside the modelled
error-free paths and falls back to the default. -/
def cgetStr (cfg : List (String × CVal)) (k : String) (d : String) : String :=
  match cget cfg k with
  | some (.s v) => v
  | some _ => d
  | none => d

/-- Function `_default_config` (server.py). -/
def default_config : List (String × CVal) :=
  [ ("pii_detection_enabled", .b true),
    ("policy_enforcement_enabled", .b true),
    ("audit_logging_enabled", .b true),
    ("auto_redact", .b true),
    ("extended_patterns", .b false),
    ("extended_policies", .b false),
    ("redaction_style", .s "[REDACTED]"),
    ("max_prompt_length", .n 10000),
    ("rate_limit", .dict [("enabled", .b false), ("max_per_minute", .n 60)]) ]

/-- The arguments of a `scan_prompt` tool call: `prompt` as retrieved by
`args.get('prompt', '')`, the raw `auto_redact` argument if supplied, and
the `context` map. -/
structure ScanArgs where
  prompt : String
  auto_redact : Option CVal
  context : List (String × CVal)

/-- The result dict `_scan_prompt` returns on the non-error path (server.py
lines 364-406).  The `summaries` sub-dict is omitted from the model: it
holds only counts, category/display names, severity tallies and rule
messages (`get_pii_summary`, `get_policy_summary`), never the scanned or
redacted text. -/
structure ScanResult where
  original_prompt : String
  redacted_prompt : Option String
  pii_detected : List PiiLogItem
  policy_violations : List PvLogItem
  action : String
  safe_to_send : Bool
  audit_hash : Option String

/-- What a `scan_prompt` call yields for the caller: the oversized-input
validation error `{'error': 'Prompt exceeds maximum length', 'max_length':
...}`, the scan result, or a raised exception — which the transport's
`except` handler (server.py lines 307-316) turns into an error dict holding
only the exception message, tool name and timestamp. -/
inductive ScanResponse where
  | lengthError (max_length : Option CVal)
  | ok (result : ScanResult)
  | raised (error : String)

/-- The logged shape of one PII match (server.py lines 367-373). -/
def piiLogOf (m : PIIMatch) : PiiLogItem :=
  { type := m.type, name := m.name, severity := m.severity }

/-- The logged shape of one policy violation (server.py lines 374-381). -/
def pvLogOf (v : PolicyViolation) : PvLogItem :=
  { policy := v.policy_name, category := v.category,
    action := v.action.value, message := v.message }

/-- Function `_scan_prompt` (server.py lines 318-408): length guard, PII detection,
policy check, optional redaction, action resolution, response assembly, and
the audit append when logging is enabled.  `now`, `today` and `session_id`
stand for the clock reads and the server's session id. -/
def scanPrompt (ora : RegexOracle) (H : HashFn) (cfg : List (String × CVal))
    (db : DBState) (args : ScanArgs) (now today session_id : String) :
    ScanResponse × DBState :=
  let prompt := args.prompt
  let auto_redact : CVal := args.auto_redact.getD ((cget cfg "auto_redact").getD (.b true))
  if prompt.length > cgetNat cfg "max_prompt_length" 10000 then
    (.lengthError (cget cfg "max_prompt_length"), db)
  else
    let pii_matches :=
      if cgetBool cfg "pii_detection_enabled" true then
        detect_pii ora prompt (cgetBool cfg "extended_patterns" false)
      else []
    let policy_violations :=
      if cgetBool cfg "policy_enforcement_enabled" true then
        check_policies ora prompt (cgetBool cfg "extended_policies" false) []
      else []
    let redacted_prompt :=
      if truthy auto_redact && !(pii_matches.isEmpty) then
        redact_pii prompt pii_matches (cgetStr cfg "redaction_style" "[REDACTED]")
      else prompt
    let action := resolveAction policy_violations
    let piiItems := pii_matches.map piiLogOf
    let pvItems := policy_violations.map pvLogOf
    let result : ScanResult :=
      { original_prompt := prompt
        redacted_prompt := if action != "blocked" then some redacted_prompt else none
        pii_detected := piiItems
        policy_violations := pvItems
        action := action
        safe_to_send := action != "blocked"
        audit_hash := none }
    if cgetBool cfg "audit_logging_enabled" true then
      let entry : AuditEntry :=
        { timestamp := some now
          event_type := some "scan"
          original_text := some prompt
          redacted_text := some redacted_prompt
          pii_detected := piiItems
          policy_violations := pvItems
          action_taken := some action
          user_id := cget args.context "user_id"
          session_id := some session_id
          metadata := args.context }
      match add_audit_entry H now today db entry with
      | (Except.ok hv, db2) => (.ok { result with audit_hash := some hv }, db2)
      | (Except.error msg, db2) => (.raised msg, db2)
    else
      (.ok result, db)

/-- The result dict of `_configure`. -/
structure ConfigureResult where
  status : String
  configuration : List (String × CVal)

/-- One iteration of `_configure`'s loop (server.py lines 471-473):
`if key in self.config: self.config[key] = value` — overwrite in place when
the key exists, leave the configuration untouched otherwise. -/
def configStep (c : List (String × CVal)) (kv : String × CVal) :
    List (String × CVal) :=
  if c.any (fun p => p.1 == kv.1) then
    c.map (fun p => if p.1 == kv.1 then (p.1, kv.2) else p)
  else c

/-- Function `_configure` (server.py lines 469-478): for each argument, overwrite
the value only when the key already exists in the configuration, then
report `'updated'` with the full resulting configuration. -/
def configure (cfg : List (String × CVal)) (args : List (String × CVal)) :
    ConfigureResult × List (String × CVal) :=
  let cfg' := args.foldl configStep cfg
  ({ status := "updated", configuration := cfg' }, cfg')

/-- The key set of a configuration dict. -/
def keysOf (c : List (String × CVal)) : List String := c.map Prod.fst

/-! ## Concrete instantiations used by witnesses and counterexamples -/

/-- The regex oracle reporting no matches anywhere: consistent with the real
`re` module on texts none of the configured patterns or rule regexes match. -/
def nullOracle : RegexOracle :=
  { finditer := fun _ _ => [], search := fun _ _ => false }

/-- A regex oracle that reports the one email match of the spec scenario
text `"Contact john@example.com"` for the email pattern and nothing else. -/
def emailOracle : RegexOracle :=
  { finditer := fun pat text =>
      if pat == "\\b[a-zA-Z0-9._%+-]+@[a-zA-Z0-9.-]+\\.[a-zA-Z]\x7b2,\x7d\\b"
          && text == "Contact john@example.com" then
        [{ matched := "john@example.com", groups := [], start := 8, stop := 24 }]
      else []
    search := fun _ _ => false }

/-- Tag an optional hash field the way JSON distinguishes `null` from a
string. -/
def optTag : Option String → String
  | none => "null"
  | some s => "S:" ++ s

/-- A concrete stand-in for the SHA-256-over-canonical-JSON hash, used to
evaluate witnesses and counterexamples: a field-tagged concatenation, which
like the real hash assigns different digests to the concrete inputs the
closed theorems below compare. -/
def demoHash : HashFn := fun h =>
  "sha(" ++ optTag h.timestamp ++ "|" ++ optTag h.event_type ++ "|"
    ++ optTag h.original_text ++ "|" ++ optTag h.action_taken ++ "|"
    ++ h.prev_hash ++ ")"

/-- Junk row used as the default of `List.getD` at indices proved in range. -/
def blankRow : AuditRow :=
  { id := 0, timestamp := "", event_type := "", original_text := none,
    redacted_text := none, pii_detected := [], policy_violations := [],
    action_taken := "", user_id := none, session_id := none, metadata := [],
    hash := "", prev_hash := "" }

/-- Action field of a scan response, when the scan produced a result. -/
def respAction : ScanResponse → Option String
  | .ok r => some r.action
  | .lengthError _ => none
  | .raised _ => none

/-- Original-prompt field of a scan response, when present. -/
def respOriginal : ScanResponse → Option String
  | .ok r => some r.original_prompt
  | .lengthError _ => none
  | .raised _ => none

/-- Redacted-prompt field of a scan response, when present. -/
def respRedacted : ScanResponse → Option (Option String)
  | .ok r => some r.redacted_prompt
  | .lengthError _ => none
  | .raised _ => none

/-- The default configuration with audit logging switched off — a
configuration the server accepts (its constructor takes any config dict and
`_configure` can set the flag).  With logging enabled every scan raises
from the broken append instead of returning a result. -/
def noLogConfig : List (String × CVal) :=
  [ ("pii_detection_enabled", .b true),
    ("policy_enforcement_enabled", .b true),
    ("audit_logging_enabled", .b false),
    ("auto_redact", .b true),
    ("extended_patterns", .b false),
    ("extended_policies", .b false),
    ("redaction_style", .s "[REDACTED]"),
    ("max_prompt_length", .n 10000),
    ("rate_limit", .dict [("enabled", .b false), ("max_per_minute", .n 60)]) ]

/-- The scan call of the spec's blocked scenario: logging-disabled
configuration, empty database, prompt `"I need medical advice"` (which
triggers the `medical_advice` rule's first keyword). -/
def blockedScanPair : ScanResponse × DBState :=
  scanPrompt nullOracle demoHash noLogConfig { rows := [], stats := [] }
    { prompt := "I need medical advice", auto_redact := none, context := [] }
    "2026-01-01T00:00:00" "2026-01-01" "sess1"

/-- The scan result of `blockedScanPair` (its error branch is unreachable,
as the closed theorems below establish by evaluation). -/
def blockedScanResult : ScanResult :=
  match blockedScanPair.1 with
  | .ok r => r
  | .lengthError _ =>
    { original_prompt := "", redacted_prompt := none, pii_detected := [],
      policy_violations := [], action := "", safe_to_send := false,
      audit_hash := none }
  | .raised _ =>
    { original_prompt := "", redacted_prompt := none, pii_detected := [],
      policy_violations := [], action := "", safe_to_send := false,
      audit_hash := none }

/-- A complete audit entry used by several closed evaluations. -/
def entryA : AuditEntry :=
  { timestamp := some "2026-01-01T09:00:00", event_type := some "scan",
    original_text := some "hi", redacted_text := none, pii_detected := [],
    policy_violations := [], action_taken := some "allowed", user_id := none,
    session_id := none, metadata := [] }

/-- An entry carrying one finding, whose (attempted) append would increment
today's pii counter by 1. -/
def entryWithPii : AuditEntry :=
  { timestamp := some "2026-01-01T12:00:00", event_type := some "scan",
    original_text := some "hello", redacted_text := some "hello",
    pii_detected := [{ type := "email", name := "Email Address", severity := "medium" }],
    policy_violations := [], action_taken := some "allowed", user_id := none,
    session_id := none, metadata := [] }

/-- A concrete stored ledger row satisfying the chain invariant under
`demoHash` with the genesis sentinel as predecessor (the ledger state the
spec's chain invariant describes, given explicitly since the program's own
append never commits one). -/
def ledgerRow1 : AuditRow :=
  { id := 1, timestamp := "2026-01-01T09:00:00", event_type := "scan",
    original_text := some "hi", redacted_text := none, pii_detected := [],
    policy_violations := [], action_taken := "allowed", user_id := none,
    session_id := none, metadata := [],
    hash := demoHash { timestamp := some "2026-01-01T09:00:00"
                       event_type := some "scan"
                       original_text := some "hi"
                       action_taken := some "allowed"
                       prev_hash := "genesis" }
    prev_hash := "genesis" }

/-- A second stored row chained onto `ledgerRow1`. -/
def ledgerRow2 : AuditRow :=
  { id := 2, timestamp := "2026-01-01T09:00:05", event_type := "scan",
    original_text := some "there", redacted_text := none, pii_detected := [],
    policy_violations := [], action_taken := "warned", user_id := none,
    session_id := none, metadata := [],
    hash := demoHash { timestamp := some "2026-01-01T09:00:05"
                       event_type := some "scan"
                       original_text := some "there"
                       action_taken := some "warned"
                       prev_hash := ledgerRow1.hash }
    prev_hash := ledgerRow1.hash }

/-- Copy of `ledgerRow1` with the stored `prev_hash` column mutated — a
stored-field mutation `verify_hash_chain` never looks at. -/
def tamperedRow1 : AuditRow :=
  { ledgerRow1 with prev_hash := "tampered" }

/-- Copy of `ledgerRow1` with a hashed field (`original_text`) mutated and
the stored hash left unchanged. -/
def mutatedRow1 : AuditRow :=
  { ledgerRow1 with original_text := some "evil" }

/-- The claim's per-category non-overlap relation: findings of the same
category never overlap (interval intersection on `[start, stop)`). -/
def sameTypeNonoverlap (a b : PIIMatch) : Prop :=
  a.type = b.type → ¬(a.start < b.stop ∧ b.start < a.stop)

/-- The chain invariant relative to a previous hash `prev`: each row's
stored `prev_hash` is the hash standing before it and its stored `hash` is
the recomputation from its own stored fields and that predecessor hash,
recursively down the ledger. -/
def ChainOk (H : HashFn) : String → List AuditRow → Prop
  | _, [] => True
  | prev, r :: rs =>
    r.prev_hash = prev ∧ r.hash = H (rowHashInput r prev) ∧ ChainOk H r.hash rs

/-! ## Helper lemmas -/

theorem luhnLoop_congr_mod (cs : List Char) :
    ∀ i j : Nat, i % 2 = j % 2 → luhnLoop i cs = luhnLoop j cs := by
  induction cs with
  | nil => intro i j _; rfl
  | cons c cs ih =>
    intro i j h
    have h' : (i + 1) % 2 = (j + 1) % 2 := by omega
    simp only [luhnLoop, h, ih (i + 1) (j + 1) h']

theorem luhnLoop_eq_spec : (ds : List Char) →
    luhnLoop 0 ds = luhnSpecSum (ds.map charDigitVal)
  | [] => rfl
  | [d] => by simp [luhnLoop, luhnSpecSum]
  | d1 :: d2 :: rest => by
    have h2 : luhnLoop 2 rest = luhnLoop 0 rest := luhnLoop_congr_mod rest 2 0 rfl
    have ih := luhnLoop_eq_spec rest
    simp only [luhnLoop, luhnSpecSum, List.map_cons, h2, ih]
    norm_num
    omega

/-! ## C6 — Luhn validator -/

/-- C6 (counterexample): the claim names `4532148803436467` as a valid
Luhn number, but its Luhn total is 73, so `validate_credit_card` — the
Luhn algorithm as the claim itself describes it — rejects it.  (The
repository's own test suite asserts this vector valid and therefore fails
against its own implementation; the implementation, not the vector, matches
the claimed algorithm.) -/
theorem luhn_claimed_valid_vector_fails :
    validate_credit_card "4532148803436467" = false := by decide

/-- C6 (amended): `validate_credit_card` implements the Luhn algorithm as
described — separators stripped, every second digit from the rightmost end
doubled with 9 subtracted above 9, valid iff the sum is divisible by 10;
non-digit input after stripping is invalid; separators never change the
result — but the example vector `4532148803436467` is Luhn-invalid
(total 73), while `1234567890123456` is invalid as claimed. -/
theorem validate_credit_card_spec :
    (∀ s, validate_credit_card s =
      (pyIsDigit (stripSeparators s) &&
        luhnSpecSum ((stripSeparators s).data.reverse.map charDigitVal) % 10 == 0))
  ∧ (∀ s, pyIsDigit (stripSeparators s) = false → validate_credit_card s = false)
  ∧ (∀ s t, stripSeparators s = stripSeparators t →
      validate_credit_card s = validate_credit_card t)
  ∧ validate_credit_card "4532148803436467" = false
  ∧ validate_credit_card "1234567890123456" = false := by
  have hmain : ∀ s, validate_credit_card s =
      (pyIsDigit (stripSeparators s) &&
        luhnSpecSum ((stripSeparators s).data.reverse.map charDigitVal) % 10 == 0) := by
    intro s
    unfold validate_credit_card
    cases hd : pyIsDigit (stripSeparators s) with
    | false => simp [hd]
    | true => simp [hd, luhnLoop_eq_spec]
  refine ⟨hmain, ?_, ?_, by decide, by decide⟩
  · intro s hs
    rw [hmain s, hs]
    rfl
  · intro s t hst
    rw [hmain s, hmain t, hst]

/-- C6 (witness): the amended theorem applied at concrete inputs — the
separator-equivalence clause at the dashed and the spaced form of the
spec's vector, and the non-digit clause at a letter-bearing input. -/
theorem validate_credit_card_spec_witness :
    validate_credit_card "4532-1488-0343-6467" = validate_credit_card "4532 1488 0343 6467"
  ∧ validate_credit_card "45x2" = false :=
  ⟨validate_credit_card_spec.2.2.1 "4532-1488-0343-6467" "4532 1488 0343 6467" (by decide),
   validate_credit_card_spec.2.1 "45x2" (by decide)⟩

/-! ## C8 — length-preserving redaction -/

/-- C8 (counterexample): the claim says the length-preserving placeholder's
length equals `endOffset − startOffset` with a minimum width of 1; but for
a finding spanning exactly one character (`start 0`, `stop 1`) the code
produces `"[]"` of length 2, not 1. -/
theorem redact_xxx_min_width_counterexample :
    (0 : Nat) < 1
    ∧ (replacementFor "[REDACTED-XXX]"
        { type := "ssn", name := "Social Security Number", value := none,
          start := 0, stop := 1, severity := "high", confidence := 1 }).length = 2 := by
  decide

/-- C8 (amended): under the length-preserving style the placeholder is the
two brackets around an `'X'` filler of width `stop − start − 2` (Python's
negative repetition giving the empty filler), so its total length is
`max (stop − start) 2` — the match length for matches of length at least 2,
with a minimum placeholder width of 2, not 1; and redacting an empty
findings list returns the text unchanged. -/
theorem redact_xxx_length_and_identity :
    (∀ m : PIIMatch, m.start < m.stop →
      (replacementFor "[REDACTED-XXX]" m).length = max (m.stop - m.start) 2)
  ∧ (∀ (text redaction_style : String), redact_pii text [] redaction_style = text) := by
  constructor
  · intro m _
    have h : replacementFor "[REDACTED-XXX]" m =
        "[" ++ String.mk (List.replicate (m.stop - m.start - 2) 'X') ++ "]" := rfl
    have hfill : (String.mk (List.replicate (m.stop - m.start - 2) 'X')).length
        = m.stop - m.start - 2 := by
      show (List.replicate (m.stop - m.start - 2) 'X').length = _
      simp
    rw [h, String.length_append, String.length_append, hfill]
    have h1 : "[".length = 1 := rfl
    have h2 : "]".length = 1 := rfl
    rw [h1, h2]
    omega
  · intro text redaction_style
    rfl

/-- C8 (witness): the amended theorem applied to a concrete 7-character
finding (placeholder `[XXXXX]`, length 7) and to a concrete empty
redaction. -/
theorem redact_xxx_length_witness :
    (replacementFor "[REDACTED-XXX]"
      { type := "email", name := "Email Address", value := none,
        start := 3, stop := 10, severity := "medium", confidence := 1 }).length
      = max (10 - 3) 2
  ∧ redact_pii "no pii here" [] "[REDACTED]" = "no pii here" :=
  ⟨redact_xxx_length_and_identity.1
     { type := "email", name := "Email Address", value := none,
       start := 3, stop := 10, severity := "medium", confidence := 1 } (by decide),
   redact_xxx_length_and_identity.2 "no pii here" "[REDACTED]"⟩

/-! ## C7 — matcher ordering, per-category non-overlap, determinism -/

theorem findingsFor_type (ora : RegexOracle) (text ptype : String)
    (cfg : PatternConfig) : ∀ f ∈ findingsFor ora text ptype cfg, f.type = ptype := by
  intro f hf
  unfold findingsFor at hf
  rw [List.mem_filterMap] at hf
  obtain ⟨m, -, hm⟩ := hf
  split at hm
  · cases hm
  · injection hm with h
    subst h
    rfl

theorem findingsFor_step (ora : RegexOracle) (text ptype : String)
    (cfg : PatternConfig)
    (h : List.Pairwise (fun a b : RawMatch => a.stop ≤ b.start)
           (ora.finditer cfg.pattern text)) :
    List.Pairwise (fun a b : PIIMatch => a.stop ≤ b.start)
      (findingsFor ora text ptype cfg) := by
  unfold findingsFor
  rw [List.pairwise_filterMap]
  refine h.imp ?_
  intro a b hab x hx y hy
  split at hx
  · cases hx
  · split at hy
    · cases hy
    · rw [Option.mem_some_iff] at hx hy
      subst hx
      subst hy
      exact hab

theorem mem_flatMap_findings_type (ora : RegexOracle) (text : String)
    (ps : List (String × PatternConfig)) :
    ∀ b ∈ ps.flatMap (fun p => findingsFor ora text p.1 p.2),
      b.type ∈ ps.map Prod.fst := by
  intro b hb
  rw [List.mem_flatMap] at hb
  obtain ⟨p, hp, hbp⟩ := hb
  rw [findingsFor_type ora text p.1 p.2 b hbp]
  exact List.mem_map_of_mem Prod.fst hp

theorem flatMap_pairwise_nonoverlap (ora : RegexOracle) (text : String)
    (ps : List (String × PatternConfig))
    (hnd : (ps.map Prod.fst).Nodup)
    (hoc : ∀ pat, List.Pairwise (fun a b : RawMatch => a.stop ≤ b.start)
             (ora.finditer pat text)) :
    List.Pairwise sameTypeNonoverlap
      (ps.flatMap (fun p => findingsFor ora text p.1 p.2)) := by
  induction ps with
  | nil => simp
  | cons p ps ih =>
    rw [List.flatMap_cons, List.pairwise_append]
    rw [List.map_cons, List.nodup_cons] at hnd
    refine ⟨?_, ih hnd.2, ?_⟩
    · exact (findingsFor_step ora text p.1 p.2 (hoc p.2.pattern)).imp
        (fun hab => fun _ hov => by omega)
    · intro a ha b hb hty
      have ha' : a.type = p.1 := findingsFor_type ora text p.1 p.2 a ha
      have hb' : b.type ∈ ps.map Prod.fst := mem_flatMap_findings_type ora text ps b hb
      rw [ha'] at hty
      rw [← hty] at hb'
      exact (hnd.1 hb').elim

/-- C7: for every text, either pattern set, and any regex behaviour
satisfying `re.finditer`'s documented guarantee (matches reported in
ascending position order without overlap), `detect_pii`'s findings are
sorted by ascending start offset and no two findings of the same category
overlap; and the output is a function of the input (identical input,
identical output). -/
theorem detect_pii_sorted_nonoverlapping (ora : RegexOracle) (text : String)
    (extended : Bool)
    (hoc : ∀ pat, List.Pairwise (fun a b : RawMatch => a.stop ≤ b.start)
             (ora.finditer pat text)) :
    List.Pairwise startLE (detect_pii ora text extended)
  ∧ List.Pairwise sameTypeNonoverlap (detect_pii ora text extended)
  ∧ ∀ text2 extended2, text2 = text → extended2 = extended →
      detect_pii ora text2 extended2 = detect_pii ora text extended := by
  refine ⟨List.sorted_insertionSort startLE _, ?_, ?_⟩
  · have hperm := List.perm_insertionSort startLE
      ((patternsList extended).flatMap (fun p => findingsFor ora text p.1 p.2))
    have hsym : ∀ {a b : PIIMatch},
        sameTypeNonoverlap a b → sameTypeNonoverlap b a := by
      intro a b hab hba hov
      exact hab hba.symm ⟨hov.2, hov.1⟩
    have hnd : ((patternsList extended).map Prod.fst).Nodup := by
      cases extended <;> decide
    exact (hperm.pairwise_iff fun hab => hsym hab).2
      (flatMap_pairwise_nonoverlap ora text (patternsList extended) hnd hoc)
  · intro t2 e2 h1 h2
    rw [h1, h2]

/-- C7 (witness): the theorem applied to the spec's scenario text with the
oracle reporting its one email match. -/
theorem detect_pii_sorted_nonoverlapping_witness :
    List.Pairwise startLE (detect_pii emailOracle "Contact john@example.com" false)
  ∧ List.Pairwise sameTypeNonoverlap
      (detect_pii emailOracle "Contact john@example.com" false)
  ∧ ∀ text2 extended2, text2 = "Contact john@example.com" → extended2 = false →
      detect_pii emailOracle text2 extended2 =
        detect_pii emailOracle "Contact john@example.com" false :=
  detect_pii_sorted_nonoverlapping emailOracle "Contact john@example.com" false
    (by
      intro pat
      dsimp only [emailOracle]
      split
      · simp
      · simp)

/-! ## C10 — configure frame property -/

theorem configStep_keys (c : List (String × CVal)) (kv : String × CVal) :
    keysOf (configStep c kv) = keysOf c := by
  unfold configStep
  split
  · unfold keysOf
    rw [List.map_map]
    apply List.map_congr_left
    intro p _
    by_cases h : (p.1 == kv.1) = true
    · simp [Function.comp, h]
    · simp [Function.comp, h]
  · rfl

theorem configure_fold_keys :
    ∀ (args : List (String × CVal)) (c : List (String × CVal)),
      keysOf (args.foldl configStep c) = keysOf c := by
  intro args
  induction args with
  | nil => intro c; rfl
  | cons kv args ih =>
    intro c
    rw [List.foldl_cons, ih (configStep c kv), configStep_keys]

theorem any_key_eq_of_keysOf (l : List (String × CVal)) (k : String) :
    l.any (fun p => p.1 == k) = (keysOf l).any (fun s => s == k) := by
  induction l with
  | nil => rfl
  | cons p ps ih =>
    unfold keysOf at ih ⊢
    simp only [List.map_cons, List.any_cons]
    rw [ih]

theorem configure_fold_filter :
    ∀ (args : List (String × CVal)) (cfg0 c : List (String × CVal)),
      keysOf c = keysOf cfg0 →
      (args.filter (fun kv => cfg0.any (fun p => p.1 == kv.1))).foldl configStep c
        = args.foldl configStep c := by
  intro args
  induction args with
  | nil => intro cfg0 c _; rfl
  | cons kv args ih =>
    intro cfg0 c hkeys
    have hcond : c.any (fun p => p.1 == kv.1) = cfg0.any (fun p => p.1 == kv.1) := by
      rw [any_key_eq_of_keysOf, any_key_eq_of_keysOf, hkeys]
    rw [List.filter_cons]
    by_cases hc : cfg0.any (fun p => p.1 == kv.1) = true
    · rw [if_pos hc, List.foldl_cons, List.foldl_cons]
      exact ih cfg0 (configStep c kv) (by rw [configStep_keys]; exact hkeys)
    · rw [if_neg hc, List.foldl_cons]
      have hstep : configStep c kv = c := by
        unfold configStep
        rw [if_neg]
        rw [hcond]
        exact hc
      rw [hstep]
      exact ih cfg0 c hkeys

/-- C10: `_configure` updates only keys already present (arguments with
unknown keys are silently ignored — filtering them away changes nothing),
leaves the configuration's key set invariant, and always reports status
`'updated'` together with the full resulting configuration. -/
theorem configure_updates_only_existing (cfg args : List (String × CVal)) :
    keysOf (configure cfg args).2 = keysOf cfg
  ∧ (configure cfg args).1.status = "updated"
  ∧ (configure cfg args).1.configuration = (configure cfg args).2
  ∧ configure cfg (args.filter (fun kv => cfg.any (fun p => p.1 == kv.1)))
      = configure cfg args := by
  refine ⟨configure_fold_keys args cfg, rfl, rfl, ?_⟩
  have h := configure_fold_filter args cfg cfg rfl
  unfold configure
  rw [h]

/-! ## Shape of a successful _scan_prompt result -/

theorem add_audit_entry_eq (H : HashFn) (now today : String) (db : DBState)
    (e : AuditEntry) :
    add_audit_entry H now today db e = (Except.error "database is locked", db) :=
  rfl

theorem scanPrompt_ok_shape (ora : RegexOracle) (H : HashFn)
    (cfg : List (String × CVal)) (db : DBState) (args : ScanArgs)
    (now today sid : String) (r : ScanResult) (db' : DBState)
    (h : scanPrompt ora H cfg db args now today sid = (.ok r, db')) :
    ∃ (pv : List PolicyViolation) (rp : String),
      r.original_prompt = args.prompt
      ∧ r.action = resolveAction pv
      ∧ r.policy_violations = pv.map pvLogOf
      ∧ r.redacted_prompt
          = (if resolveAction pv != "blocked" then some rp else none) := by
  simp only [scanPrompt] at h
  by_cases hlen :
      args.prompt.length > cgetNat cfg "max_prompt_length" 10000
  · rw [if_pos hlen] at h
    have := congrArg Prod.fst h
    simp at this
  · rw [if_neg hlen] at h
    by_cases hlog : cgetBool cfg "audit_logging_enabled" true = true
    · rw [if_pos hlog] at h
      split at h
      · rename_i heq
        rw [add_audit_entry_eq] at heq
        simp at heq
      · simp at h
    · rw [if_neg hlog] at h
      rw [Prod.mk.injEq] at h
      obtain ⟨h1, -⟩ := h
      injection h1 with h2
      subst h2
      exact ⟨_, _, rfl, rfl, rfl, rfl⟩

/-! ## C4 — decision resolution -/

theorem should_block_iff (vl : List PolicyViolation) :
    should_block vl = true ↔ ∃ v ∈ vl, v.action = PolicyAction.block := by
  unfold should_block
  rw [List.any_eq_true]
  simp

/-- C4: the resolved action is `blocked` iff some violation carries action
`block`; `warned` iff violations exist but none carries `block`; `allowed`
iff there is no violation — and on every successful scan result the action
is `blocked` exactly when the reported violation list contains a `block`
action, independently of the findings. -/
theorem policy_action_resolution (vl : List PolicyViolation) :
    (resolveAction vl = "blocked" ↔ ∃ v ∈ vl, v.action = PolicyAction.block)
  ∧ (resolveAction vl = "warned"
      ↔ vl ≠ [] ∧ ∀ v ∈ vl, v.action ≠ PolicyAction.block)
  ∧ (resolveAction vl = "allowed" ↔ vl = [])
  ∧ (∀ ora H cfg db args now today sid r db',
      scanPrompt ora H cfg db args now today sid = (.ok r, db') →
      (r.action = "blocked"
        ↔ (r.policy_violations.any (fun v => v.action == "block")) = true)) := by
  have hresolve : ∀ (pv : List PolicyViolation),
      (resolveAction pv = "blocked" ↔ should_block pv = true) := by
    intro pv
    unfold resolveAction
    by_cases hsb : should_block pv = true
    · rw [if_pos hsb]
      exact iff_of_true rfl hsb
    · rw [if_neg hsb]
      refine iff_of_false ?_ hsb
      split <;> decide
  refine ⟨?_, ?_, ?_, ?_⟩
  · rw [hresolve vl, should_block_iff]
  · unfold resolveAction
    by_cases hsb : should_block vl = true
    · rw [if_pos hsb]
      refine iff_of_false (by decide) ?_
      rintro ⟨-, hnone⟩
      obtain ⟨v, hv, hb⟩ := (should_block_iff vl).1 hsb
      exact hnone v hv hb
    · rw [if_neg hsb]
      cases vl with
      | nil => exact iff_of_false (by decide) (by simp)
      | cons v vs =>
        refine iff_of_true (by simp) ⟨by simp, ?_⟩
        intro w hw hwb
        exact hsb ((should_block_iff (v :: vs)).2 ⟨w, hw, hwb⟩)
  · unfold resolveAction
    by_cases hsb : should_block vl = true
    · rw [if_pos hsb]
      refine iff_of_false (by decide) ?_
      rintro rfl
      exact absurd hsb (by decide)
    · rw [if_neg hsb]
      cases vl with
      | nil => exact iff_of_true rfl rfl
      | cons v vs => exact iff_of_false (by simp) (by simp)
  · intro ora H cfg db args now today sid r db' h
    obtain ⟨pv, rp, -, hact, hpv, -⟩ :=
      scanPrompt_ok_shape ora H cfg db args now today sid r db' h
    rw [hact, hpv]
    have hmap : ∀ (l : List PolicyViolation),
        ((l.map pvLogOf).any (fun v => v.action == "block")) = should_block l := by
      intro l
      induction l with
      | nil => rfl
      | cons v vs ih =>
        have hhead : ((pvLogOf v).action == "block")
            = (v.action == PolicyAction.block) := by
          obtain ⟨pn, cat, mk, act, msg, sev, conf⟩ := v
          cases act <;> rfl
        unfold should_block at ih ⊢
        simp only [List.map_cons, List.any_cons, hhead, ih]
    rw [hmap pv]
    exact hresolve pv

/-- C4 (witness): the scan-result clause of the theorem applied to the
concrete blocked scenario scan. -/
theorem policy_action_resolution_witness :
    blockedScanResult.action = "blocked"
      ↔ (blockedScanResult.policy_violations.any (fun v => v.action == "block"))
          = true :=
  (policy_action_resolution []).2.2.2 nullOracle demoHash noLogConfig
    { rows := [], stats := [] }
    { prompt := "I need medical advice", auto_redact := none, context := [] }
    "2026-01-01T00:00:00" "2026-01-01" "sess1" blockedScanResult
    blockedScanPair.2 rfl

/-! ## C1 — blocked scans and returned text -/

/-- C1 (counterexample): on the spec's blocked scenario run under a
configuration with audit logging disabled — so that the scan actually
returns a result instead of raising from the broken append — the result
still carries the scanned text verbatim in `original_prompt` (server.py
line 365 includes it unconditionally); only `redacted_prompt` is
suppressed. -/
theorem scan_blocked_returns_original_text :
    respAction blockedScanPair.1 = some "blocked"
  ∧ respOriginal blockedScanPair.1 = some "I need medical advice"
  ∧ respRedacted blockedScanPair.1 = some none := by decide

/-- C1 (amended): whenever a scan returns a result, it echoes the scanned
text as `original_prompt`; a `blocked` decision suppresses only the
redacted form, setting `redacted_prompt` to `None`.  (With audit logging
enabled no result is returned at all: the scan raises from the broken
append and the caller receives an error dict containing no form of the
text.) -/
theorem scan_blocked_suppresses_redacted_only (ora : RegexOracle) (H : HashFn)
    (cfg : List (String × CVal)) (db : DBState) (args : ScanArgs)
    (now today sid : String) (r : ScanResult) (db' : DBState)
    (h : scanPrompt ora H cfg db args now today sid = (.ok r, db')) :
    r.original_prompt = args.prompt
  ∧ (r.action = "blocked" → r.redacted_prompt = none) := by
  obtain ⟨pv, rp, horig, hact, -, hred⟩ :=
    scanPrompt_ok_shape ora H cfg db args now today sid r db' h
  refine ⟨horig, ?_⟩
  intro hblocked
  rw [hact] at hblocked
  rw [hred, hblocked]
  rfl

/-- C1 (witness): the amended theorem applied to the concrete blocked
scenario scan under the logging-disabled configuration. -/
theorem scan_blocked_suppresses_redacted_only_witness :
    blockedScanResult.original_prompt = "I need medical advice"
  ∧ blockedScanResult.redacted_prompt = none := by
  have h : scanPrompt nullOracle demoHash noLogConfig
      { rows := [], stats := [] }
      { prompt := "I need medical advice", auto_redact := none, context := [] }
      "2026-01-01T00:00:00" "2026-01-01" "sess1"
      = (.ok blockedScanResult, blockedScanPair.2) := rfl
  obtain ⟨h1, h2⟩ := scan_blocked_suppresses_redacted_only nullOracle demoHash
    noLogConfig { rows := [], stats := [] }
    { prompt := "I need medical advice", auto_redact := none, context := [] }
    "2026-01-01T00:00:00" "2026-01-01" "sess1" blockedScanResult
    blockedScanPair.2 h
  exact ⟨h1, h2 (by decide)⟩

/-! ## C9 — oversized prompt is a pure validation error -/

/-- C9: when the prompt exceeds the configured maximum length,
`_scan_prompt` returns the validation-error dict and the database state is
untouched — no record is appended and no statistics counter changes. -/
theorem scan_oversized_is_pure_error (ora : RegexOracle) (H : HashFn)
    (cfg : List (String × CVal)) (db : DBState) (args : ScanArgs)
    (now today sid : String)
    (h : args.prompt.length > cgetNat cfg "max_prompt_length" 10000) :
    scanPrompt ora H cfg db args now today sid
      = (.lengthError (cget cfg "max_prompt_length"), db) := by
  simp only [scanPrompt]
  rw [if_pos h]

/-- C9 (witness): the theorem applied to a configuration with limit 3 and
the four-character prompt `"abcd"`, showing the untouched empty database
in the output. -/
theorem scan_oversized_is_pure_error_witness :
    scanPrompt nullOracle demoHash [("max_prompt_length", CVal.n 3)]
      { rows := [], stats := [] }
      { prompt := "abcd", auto_redact := none, context := [] } "t" "d" "s"
      = (.lengthError (some (CVal.n 3)), { rows := [], stats := [] }) := by
  have h := scan_oversized_is_pure_error nullOracle demoHash
    [("max_prompt_length", CVal.n 3)] { rows := [], stats := [] }
    { prompt := "abcd", auto_redact := none, context := [] } "t" "d" "s"
    (by decide)
  have h2 : cget [("max_prompt_length", CVal.n 3)] "max_prompt_length"
      = some (CVal.n 3) := rfl
  rw [h2] at h
  exact h

/-! ## Chain lemmas -/

theorem lastHashD_cons (prev : String) (r : AuditRow) (rs : List AuditRow) :
    lastHashD prev (r :: rs) = lastHashD r.hash rs := by
  cases rs with
  | nil => rfl
  | cons r2 rs2 =>
    unfold lastHashD
    rw [List.getLast?_cons_cons]
    obtain ⟨x, hx⟩ : ∃ x, (r2 :: rs2).getLast? = some x := by
      cases h : (r2 :: rs2).getLast? with
      | none => exact absurd h (by simp)
      | some x => exact ⟨x, rfl⟩
    rw [hx]
    rfl

theorem verifyGo_of_chainOk (H : HashFn) : ∀ (rows : List AuditRow)
    (prev : String), ChainOk H prev rows → verifyGo H prev rows = [] := by
  intro rows
  induction rows with
  | nil => intro prev _; rfl
  | cons r rs ih =>
    intro prev h
    obtain ⟨-, h2, h3⟩ := h
    simp only [verifyGo]
    rw [if_pos h2.symm, ih r.hash h3]
    rfl

/-! ## C3 — the append path always raises -/

/-- C3 (code bug): the claim — and the repository's own tests — expect
`add_audit_entry` to append each record so that full verification then
passes; but `_update_statistics` writes on a second connection while the
insert transaction still holds SQLite's single write lock, so every call
raises `OperationalError('database is locked')` before the commit on
database.py line 160 and leaves the database unchanged — no sequence of
one or more records can ever be appended.  Evaluated here at a concrete
complete entry on the empty ledger: the call reports the error and neither
the rows nor the statistics change. -/
theorem add_audit_entry_never_appends :
    (add_audit_entry demoHash "2026-01-01T09:00:00" "2026-01-01"
        { rows := [], stats := [] } entryA).1 = Except.error "database is locked"
  ∧ (add_audit_entry demoHash "2026-01-01T09:00:00" "2026-01-01"
        { rows := [], stats := [] } entryA).2.rows = []
  ∧ (add_audit_entry demoHash "2026-01-01T09:00:00" "2026-01-01"
        { rows := [], stats := [] } entryA).2.stats = [] :=
  ⟨rfl, rfl, rfl⟩

/-! ## C2 — tamper evidence -/

theorem verifyGo_append (H : HashFn) : ∀ (l1 l2 : List AuditRow) (prev : String),
    verifyGo H prev (l1 ++ l2)
      = verifyGo H prev l1 ++ verifyGo H (lastHashD prev l1) l2 := by
  intro l1
  induction l1 with
  | nil => intro l2 prev; rfl
  | cons r rs ih =>
    intro l2 prev
    simp only [List.cons_append, verifyGo, List.append_eq]
    rw [ih l2 r.hash, lastHashD_cons, List.append_assoc]

theorem chainOk_take (H : HashFn) : ∀ (rows : List AuditRow) (prev : String)
    (k : Nat), ChainOk H prev rows → ChainOk H prev (rows.take k) := by
  intro rows
  induction rows with
  | nil =>
    intro prev k _
    rw [List.take_nil]
    trivial
  | cons r rs ih =>
    intro prev k h
    cases k with
    | zero => trivial
    | succ k => exact ⟨h.1, h.2.1, ih r.hash k h.2.2⟩

theorem chainOk_get_prev (H : HashFn) : ∀ (rows : List AuditRow) (prev : String)
    (k : Nat), k < rows.length → ChainOk H prev rows →
    (rows.getD k blankRow).prev_hash = lastHashD prev (rows.take k) := by
  intro rows
  induction rows with
  | nil =>
    intro prev k hk
    exact absurd hk (by simp)
  | cons r rs ih =>
    intro prev k hk h
    cases k with
    | zero => exact h.1
    | succ k =>
      have hk' : k < rs.length := by simpa using hk
      have := ih r.hash k hk' h.2.2
      rw [List.getD_cons_succ, List.take_succ_cons, lastHashD_cons]
      exact this

theorem chainOk_drop_after (H : HashFn) : ∀ (rows : List AuditRow)
    (prev : String) (k : Nat), k < rows.length → ChainOk H prev rows →
    ChainOk H (rows.getD k blankRow).hash (rows.drop (k + 1)) := by
  intro rows
  induction rows with
  | nil =>
    intro prev k hk
    exact absurd hk (by simp)
  | cons r rs ih =>
    intro prev k hk h
    cases k with
    | zero => exact h.2.2
    | succ k =>
      have hk' : k < rs.length := by simpa using hk
      exact ih r.hash k hk' h.2.2

theorem set_eq_take_cons_drop : ∀ (l : List AuditRow) (k : Nat) (a : AuditRow),
    k < l.length → l.set k a = l.take k ++ a :: l.drop (k + 1) := by
  intro l
  induction l with
  | nil =>
    intro k a hk
    exact absurd hk (by simp)
  | cons r rs ih =>
    intro k a hk
    cases k with
    | zero => rfl
    | succ k =>
      have hk' : k < rs.length := by simpa using hk
      simp only [List.set_cons_succ, List.take_succ_cons, List.drop_succ_cons,
        List.cons_append]
      rw [ih k a hk']

/-- C2 (counterexample): the stored `prev_hash` column is a stored field of
the record, yet `verify_hash_chain` never consults it — on a chain-valid
one-record ledger state, mutating that column still verifies
`valid = true` with no invalid entries.  (The same holds for the
non-hashed payload columns, which the hash input excludes by design.) -/
theorem verify_misses_prev_hash_mutation :
    ChainOk demoHash "genesis" [ledgerRow1]
  ∧ tamperedRow1.prev_hash ≠ ledgerRow1.prev_hash
  ∧ (verify_hash_chain demoHash ([ledgerRow1].set 0 tamperedRow1)).valid = true
  ∧ (verify_hash_chain demoHash ([ledgerRow1].set 0 tamperedRow1)).invalid_entries
      = [] := by
  refine ⟨⟨rfl, rfl, trivial⟩, by decide, by decide, by decide⟩

/-- C2 (amended): on any ledger state satisfying the chain invariant (the
state the spec's appends are meant to produce, supplied explicitly here
since the program's own append never commits a record), mutating record k
so that its stored fields no longer hash — against the predecessor's
stored hash — to its stored `entryHash` (i.e. any change to a hashed field
or to the stored hash itself, absent a hash collision) makes full
verification report `valid = false` with record k among the invalid
entries; and when the stored hash itself is untouched, record k is the
single invalid entry (no cascade).  Mutations of the excluded stored
fields (`prev_hash` column, redacted text, findings, violations,
user/session id, metadata) go unreported, as the counterexample shows. -/
theorem verify_reports_hashed_field_mutation (H : HashFn)
    (rows : List AuditRow) (hchain : ChainOk H "genesis" rows)
    (k : Nat) (hk : k < rows.length) (r' : AuditRow)
    (hne : H (rowHashInput r' ((rows.getD k blankRow).prev_hash)) ≠ r'.hash) :
    ((verify_hash_chain H (rows.set k r')).valid = false
     ∧ r'.id ∈ ((verify_hash_chain H (rows.set k r')).invalid_entries.map (·.id)))
  ∧ (r'.hash = (rows.getD k blankRow).hash →
     ((verify_hash_chain H (rows.set k r')).invalid_entries.map (·.id))
       = [r'.id]) := by
  have hdecomp := set_eq_take_cons_drop rows k r' hk
  have hprevk := chainOk_get_prev H rows "genesis" k hk hchain
  have hinv : verifyGo H "genesis" (rows.set k r')
      = { id := r'.id,
          expected_hash := H (rowHashInput r' ((rows.getD k blankRow).prev_hash)),
          actual_hash := r'.hash }
        :: verifyGo H r'.hash (rows.drop (k + 1)) := by
    rw [hdecomp, verifyGo_append]
    rw [verifyGo_of_chainOk H _ _ (chainOk_take H rows "genesis" k hchain)]
    rw [← hprevk]
    simp only [verifyGo, List.nil_append]
    rw [if_neg hne]
    rfl
  refine ⟨⟨?_, ?_⟩, ?_⟩
  · unfold verify_hash_chain
    simp only [hinv]
    rfl
  · unfold verify_hash_chain
    simp [hinv]
  · intro hsame
    unfold verify_hash_chain
    simp only [hinv]
    have hdrop := chainOk_drop_after H rows "genesis" k hk hchain
    rw [hsame] at hinv ⊢
    rw [verifyGo_of_chainOk H _ _ hdrop]
    rfl

/-- C2 (witness): the amended theorem applied to the concrete chain-valid
two-record ledger with record 0's hashed field `original_text` mutated to
`"evil"` (stored hash untouched), reporting exactly record id 1 invalid. -/
theorem verify_reports_hashed_field_mutation_witness :
    (((verify_hash_chain demoHash
          ([ledgerRow1, ledgerRow2].set 0 mutatedRow1)).valid = false)
     ∧ mutatedRow1.id ∈ ((verify_hash_chain demoHash
          ([ledgerRow1, ledgerRow2].set 0 mutatedRow1)).invalid_entries.map (·.id)))
  ∧ (mutatedRow1.hash = ([ledgerRow1, ledgerRow2].getD 0 blankRow).hash →
     ((verify_hash_chain demoHash
        ([ledgerRow1, ledgerRow2].set 0 mutatedRow1)).invalid_entries.map (·.id))
       = [mutatedRow1.id]) :=
  verify_reports_hashed_field_mutation demoHash [ledgerRow1, ledgerRow2]
    ⟨rfl, rfl, rfl, rfl, trivial⟩ 0 (by decide) mutatedRow1 (by decide)

/-! ## C5 — the statistics update always fails -/

/-- C5 (code bug): the claim says each successful append increments the
day's DailyStatistic atomically in the same transaction as the record
insert; in the code `_update_statistics` writes on a second connection
(database.py line 167) that can never acquire SQLite's write lock while
the insert's transaction is open, so the call raises
`'database is locked'` and nothing commits — neither the increment nor the
insert ever happens.  Evaluated at a concrete entry carrying one finding,
against a database whose day row reads `(5, 2, 1, 0)`: the second-writer
acquisition fails, the call reports the error, and both the ledger and the
day row are unchanged. -/
theorem statistics_never_increment :
    acquireWrite 2 (LockState.heldBy 1) = Except.error "database is locked"
  ∧ add_audit_entry demoHash "2026-01-01T12:00:00" "2026-01-01"
      { rows := [],
        stats := [("2026-01-01",
          { total_scans := 5, pii_detections := 2, policy_violations := 1,
            blocked_prompts := 0 })] } entryWithPii
    = (Except.error "database is locked",
       { rows := [],
         stats := [("2026-01-01",
           { total_scans := 5, pii_detections := 2, policy_violations := 1,
             blocked_prompts := 0 })] })
  ∧ statsLookup "2026-01-01"
      (add_audit_entry demoHash "2026-01-01T12:00:00" "2026-01-01"
        { rows := [],
          stats := [("2026-01-01",
            { total_scans := 5, pii_detections := 2, policy_violations := 1,
              blocked_prompts := 0 })] } entryWithPii).2.stats
    = some { total_scans := 5, pii_detections := 2, policy_violations := 1,
             blocked_prompts := 0 } :=
  ⟨rfl, rfl, rfl⟩

end AIGov
